import Mathlib

/-!
Verification development for the social-media analytics core:
the aggregation-and-caching service (`src/services/data-servise.tsx`),
and the per-request engagement metrics / percentile ranking engine
(`src/lib/types.tsx`, Express controller section).

Conventions of the shallow embedding:
* JavaScript numbers that are only ever integers are modelled as `Nat`.
* Fractional engagement rates are modelled as `ℚ`; a JavaScript number that
  may be non-finite (`NaN` or `±Infinity`, e.g. from an unguarded division
  by zero) is modelled as `Option ℚ` with `none` for the non-finite case.
* `Map<string, number>` tallies are modelled by counting functions over the
  underlying lists; `Map` insertion/iteration order is modelled with
  `List.dedup` (first-occurrence order) where it matters.
* `Array.prototype.sort` (stable per the ECMAScript spec) is modelled by
  `List.insertionSort r` where `r a b` holds iff `comparator a b ≤ 0`;
  Mathlib's `insertionSort` is stable in exactly this sense.
* `Post.timestamp` (an ISO string in the source, used only through
  `new Date(ts).getTime()`) is modelled directly by its parsed epoch value.
-/

namespace SocialAnalytics

/-! ### Data model (`src/lib/types.tsx`, interface section) -/

structure User where
  id : String
  name : String
  email : String
deriving DecidableEq, Repr

structure Post where
  id : String
  userId : String
  title : String
  content : String
  timestamp : Nat
deriving DecidableEq, Repr

structure Comment where
  id : String
  postId : String
  userId : String
  content : String
  timestamp : Nat
deriving DecidableEq, Repr

structure UserWithStats extends User where
  postCount : Nat
deriving DecidableEq, Repr

structure PostWithStats extends Post where
  commentCount : Nat
  userName : Option String
deriving DecidableEq, Repr

structure RawData where
  users : List User
  posts : List Post
  comments : List Comment
deriving DecidableEq, Repr

structure ComputedViews where
  topUsers : List UserWithStats
  latestPosts : List PostWithStats
  popularPosts : List PostWithStats
deriving DecidableEq, Repr

structure CacheData where
  rawData : RawData
  computed : ComputedViews
  lastFetched : Nat
deriving DecidableEq, Repr

/-- Errors that `ApiClient.fetchAllData` can reject with
(`src/lib/api.tsx`): an authentication failure or an upstream fetch
failure. The distinction is irrelevant to the cache logic. -/
inductive FetchError where
  | authError
  | upstreamError
deriving DecidableEq, Repr

instance {ε α : Type} [DecidableEq ε] [DecidableEq α] : DecidableEq (Except ε α) :=
  fun a b =>
    match a, b with
    | .error e, .error f =>
        if h : e = f then isTrue (by rw [h])
        else isFalse (fun hh => h (Except.error.inj hh))
    | .error _, .ok _ => isFalse (fun hh => Except.noConfusion hh)
    | .ok _, .error _ => isFalse (fun hh => Except.noConfusion hh)
    | .ok x, .ok y =>
        if h : x = y then isTrue (by rw [h])
        else isFalse (fun hh => h (Except.ok.inj hh))

namespace DataService

/-- `CACHE_DURATION = 10 * 1000` (`data-servise.tsx` line 12). -/
def CACHE_DURATION : Nat := 10 * 1000

/-- `getCacheExpiry` (line 36): `lastFetched + CACHE_DURATION`. -/
def getCacheExpiry (c : CacheData) : Nat :=
  c.lastFetched + CACHE_DURATION

/-- `isCacheFresh` (line 40): `lastFetched > 0 && Date.now() < expiry`,
with `Date.now()` passed in explicitly as `now`. -/
def isCacheFresh (now : Nat) (c : CacheData) : Bool :=
  decide (0 < c.lastFetched) && decide (now < getCacheExpiry c)

/-! ### Aggregation engine (`data-servise.tsx` lines 83-154) -/

/-- Number of posts whose `userId` is `uid`: the value
`userPostCounts.get(uid) || 0` after the tally loop in
`computeTopUsers` (lines 84-89). -/
def countPostsBy (posts : List Post) (uid : String) : Nat :=
  (posts.filter (fun p => p.userId == uid)).length

/-- The `usersWithCounts` array of `computeTopUsers` (lines 91-96):
every user, in snapshot order, paired with their post count. -/
def usersWithCounts (raw : RawData) : List UserWithStats :=
  raw.users.map (fun u => { toUser := u, postCount := countPostsBy raw.posts u.id })

/-- The order imposed by the comparator `(a, b) => b.postCount - a.postCount`
(line 99): `a` sorts no later than `b` iff the comparator is `≤ 0`,
i.e. `b.postCount ≤ a.postCount`. -/
def topUserLE (a b : UserWithStats) : Prop :=
  b.postCount ≤ a.postCount

instance : DecidableRel topUserLE :=
  fun a b => inferInstanceAs (Decidable (b.postCount ≤ a.postCount))

instance : IsTotal UserWithStats topUserLE :=
  ⟨fun a b => Nat.le_total b.postCount a.postCount⟩

instance : IsTrans UserWithStats topUserLE :=
  ⟨fun _ _ _ hab hbc => Nat.le_trans hbc hab⟩

/-- `computeTopUsers` (lines 83-101): stable descending sort of
`usersWithCounts` by `postCount`, truncated to 5. -/
def computeTopUsers (raw : RawData) : List UserWithStats :=
  ((usersWithCounts raw).insertionSort topUserLE).take 5

/-- Number of comments whose `postId` is `pid`: the value
`postCommentCounts.get(pid) || 0` after the tally loop
(lines 107-111 and 130-135). -/
def commentCountOf (comments : List Comment) (pid : String) : Nat :=
  (comments.filter (fun c => c.postId == pid)).length

/-- The key set of the `postCommentCounts` map, in insertion order:
the distinct `postId`s occurring in `comments`. -/
def commentedPostIds (comments : List Comment) : List String :=
  (comments.map (fun c => c.postId)).dedup

/-- The `maxCommentCount` loop of `computePopularPosts` (lines 137-143):
the maximum over the values of the `postCommentCounts` map, `0` if the
map is empty. -/
def maxCommentCount (comments : List Comment) : Nat :=
  ((commentedPostIds comments).map (commentCountOf comments)).foldr max 0

/-- `userMap.get(uid)?.name` (lines 104-105, 127-128): the `userMap` is
built with `Map.set` per user, so on duplicate ids the last binding wins. -/
def userNameOf (users : List User) (uid : String) : Option String :=
  ((users.filter (fun u => u.id == uid)).getLast?).map (fun u => u.name)

/-- The order imposed by the `computeLatestPosts` comparator
`(a, b) => time(b) - time(a)` (lines 114-117). -/
def latestLE (a b : Post) : Prop :=
  b.timestamp ≤ a.timestamp

instance : DecidableRel latestLE :=
  fun a b => inferInstanceAs (Decidable (b.timestamp ≤ a.timestamp))

/-- `computeLatestPosts` (lines 103-124): posts sorted descending by
timestamp, truncated to 5, decorated with `commentCount` and `userName`. -/
def computeLatestPosts (raw : RawData) : List PostWithStats :=
  (((raw.posts).insertionSort latestLE).take 5).map
    (fun p => { toPost := p,
                commentCount := commentCountOf raw.comments p.id,
                userName := userNameOf raw.users p.userId })

/-- `computePopularPosts` (lines 126-154): every post whose comment count
equals `maxCommentCount`, decorated with `commentCount` and `userName`. -/
def computePopularPosts (raw : RawData) : List PostWithStats :=
  (raw.posts.filter
      (fun p => commentCountOf raw.comments p.id == maxCommentCount raw.comments)).map
    (fun p => { toPost := p,
                commentCount := commentCountOf raw.comments p.id,
                userName := userNameOf raw.users p.userId })

/-- Specification-side definition (spec section 4.2, "Popular posts"):
the maximum comment count across all posts — the maximum, over the posts
of the snapshot, of each post's comment count. -/
def maxCommentCountSpec (raw : RawData) : Nat :=
  (raw.posts.map (fun p => commentCountOf raw.comments p.id)).foldr max 0

/-- Specification-side definition (spec section 4.2, "Popular posts"):
exactly the posts whose comment count equals the maximum comment count
across all posts. -/
def popularPostsSpec (raw : RawData) : List Post :=
  raw.posts.filter
    (fun p => commentCountOf raw.comments p.id == maxCommentCountSpec raw)

/-! ### Refresh coordinator (`data-servise.tsx` lines 44-81, 156-169)

`performRefresh` awaits `apiClient.fetchAllData()` first (line 64); the
cache mutations and view recomputations (lines 66-74) are synchronous,
non-throwing, and happen only after that await resolves, with
`lastFetched` set in the same synchronous block. The upstream outcome is
therefore passed in as an explicit `Except FetchError RawData`, and a
rejection leaves the state untouched. -/

/-- `performRefresh` (lines 61-81): on success replaces the raw data,
recomputes all three views and sets `lastFetched := now`; on failure
rethrows and leaves the cache as it was. -/
def performRefresh (now : Nat) (fetch : Except FetchError RawData)
    (c : CacheData) : Except FetchError Unit × CacheData :=
  match fetch with
  | .error e => (.error e, c)
  | .ok raw =>
      (.ok (),
       { rawData := raw,
         computed :=
           { topUsers := computeTopUsers raw,
             latestPosts := computeLatestPosts raw,
             popularPosts := computePopularPosts raw },
         lastFetched := now })

/-- `refreshData` (lines 44-59) as seen by a single caller that is not
joining an in-flight refresh: return immediately on a fresh cache unless
forced, otherwise perform the refresh and propagate its outcome. (The
single-flight join path is modelled separately by `refreshDataStep`.) -/
def refreshData (force : Bool) (now : Nat) (fetch : Except FetchError RawData)
    (c : CacheData) : Except FetchError Unit × CacheData :=
  if !force && isCacheFresh now c then (.ok (), c)
  else performRefresh now fetch c

/-- `getTopUsers` (lines 156-159): `await refreshData()` with no catch,
then return the cached view. A rejection of `refreshData` propagates. -/
def getTopUsers (now : Nat) (fetch : Except FetchError RawData)
    (c : CacheData) : Except FetchError (List UserWithStats) × CacheData :=
  match refreshData false now fetch c with
  | (.error e, c') => (.error e, c')
  | (.ok _, c') => (.ok c'.computed.topUsers, c')

/-- `getLatestPosts` (lines 161-164), same shape as `getTopUsers`. -/
def getLatestPosts (now : Nat) (fetch : Except FetchError RawData)
    (c : CacheData) : Except FetchError (List PostWithStats) × CacheData :=
  match refreshData false now fetch c with
  | (.error e, c') => (.error e, c')
  | (.ok _, c') => (.ok c'.computed.latestPosts, c')

/-- `getPopularPosts` accessor (lines 166-169), same shape as `getTopUsers`. -/
def getPopularPostsCached (now : Nat) (fetch : Except FetchError RawData)
    (c : CacheData) : Except FetchError (List PostWithStats) × CacheData :=
  match refreshData false now fetch c with
  | (.error e, c') => (.error e, c')
  | (.ok _, c') => (.ok c'.computed.popularPosts, c')

/-! ### Single-flight model

JavaScript is single-threaded with run-to-completion semantics, so the
synchronous section of `refreshData` (lines 44-52: the freshness check,
the `refreshPromise` null check, and the assignment of a new promise) is
atomic: no other call can interleave between the check and the
assignment. `FlightState` abstracts the fields this section reads and
writes; promises are identified by the value of a counter
(`fetchCount`), which counts how many times `fetchAll` has been
invoked. -/

structure FlightState where
  lastFetched : Nat
  inFlight : Option Nat
  fetchCount : Nat
deriving DecidableEq, Repr

/-- What a call to `refreshData` does in its synchronous section:
return on a cache hit, join the in-flight refresh promise `p`, or start
a new fetch with promise id `p`. -/
inductive RefreshAction where
  | cacheHit
  | join (p : Nat)
  | start (p : Nat)
deriving DecidableEq, Repr

/-- `isCacheFresh` read on the abstract state. -/
def flightFresh (now : Nat) (s : FlightState) : Bool :=
  decide (0 < s.lastFetched) && decide (now < s.lastFetched + CACHE_DURATION)

/-- The atomic synchronous section of `refreshData` (lines 44-52):
`if (!force && isCacheFresh()) return;` then
`if (refreshPromise) return refreshPromise;` then
`refreshPromise = performRefresh()` (which invokes `fetchAll`). -/
def refreshDataStep (force : Bool) (now : Nat) (s : FlightState) :
    RefreshAction × FlightState :=
  if !force && flightFresh now s then (.cacheHit, s)
  else
    match s.inFlight with
    | some p => (.join p, s)
    | none =>
        (.start s.fetchCount,
         { s with inFlight := some s.fetchCount, fetchCount := s.fetchCount + 1 })

/-- A batch of concurrent calls to `refreshData`, each a `(force, now)`
pair, arriving while no awaited promise in the batch has settled:
the resulting state. -/
def runCalls : List (Bool × Nat) → FlightState → FlightState
  | [], s => s
  | c :: rest, s => runCalls rest (refreshDataStep c.1 c.2 s).2

/-- The actions taken by a batch of concurrent calls to `refreshData`. -/
def runActions (calls : List (Bool × Nat)) (s : FlightState) : List RefreshAction :=
  match calls with
  | [] => []
  | c :: rest =>
      (refreshDataStep c.1 c.2 s).1 :: runActions rest (refreshDataStep c.1 c.2 s).2

end DataService

namespace Metrics

/-! ### Engagement metrics engine (`src/lib/types.tsx`, Express controller
section: `getPopularPosts`, `getTrendingTopics`,
`getUserEngagementComparison`)

A post row as returned by the database queries of this controller: the
post's `_count` aggregates (`likes`, `comments`, `shares`, `views`) plus
the fields the computations read. The database query is the external
boundary; the embedded functions below are the pure computations the
controller performs on the returned rows. -/

structure PostRec where
  id : String
  userId : String
  likes : Nat
  comments : Nat
  shares : Nat
  views : Nat
deriving DecidableEq, Repr

/-- `totalEngagements = likes + comments + shares` (lines 211-212,
367-368, 516-517, 551-552 of `types.tsx`; views excluded). -/
def totalEngagements (p : PostRec) : Nat :=
  p.likes + p.comments + p.shares

/-- Rounding by `parseFloat(x.toFixed(2))` on a finite value, read
exactly over `ℚ`: round to the nearest hundredth (ties away from zero
for the nonnegative values occurring here). -/
def round2 (q : ℚ) : ℚ :=
  (round (q * 100) : ℚ) / 100

/-- The guarded rate `views > 0 ? (engagements / views) * 100 : 0`
(lines 213-216, 522-523, 557-560, 599). -/
def rateOf (engagements views : Nat) : ℚ :=
  if 0 < views then ((engagements : ℚ) / (views : ℚ)) * 100 else 0

/-! #### JavaScript number semantics for the unguarded arithmetic

`Option ℚ` models a JavaScript number: `some q` is the finite value `q`,
`none` is a non-finite result (`NaN` or `±Infinity`), which in this code
can only arise from a division by zero. Non-finite values propagate
through arithmetic and survive `parseFloat(x.toFixed(2))`
(`NaN.toFixed(2) = "NaN"`, `parseFloat("NaN") = NaN`). -/

/-- JavaScript division: division by zero yields a non-finite value
(`0/0 = NaN`, `x/0 = ±Infinity`); non-finite operands propagate. -/
def jsDiv (a b : Option ℚ) : Option ℚ :=
  match a, b with
  | some x, some y => if y = 0 then none else some (x / y)
  | _, _ => none

/-- JavaScript multiplication restricted to the finite-input cases used
here; non-finite operands propagate. -/
def jsMul (a b : Option ℚ) : Option ℚ :=
  match a, b with
  | some x, some y => some (x * y)
  | _, _ => none

/-- JavaScript subtraction; non-finite operands propagate. -/
def jsSub (a b : Option ℚ) : Option ℚ :=
  match a, b with
  | some x, some y => some (x - y)
  | _, _ => none

/-- `parseFloat(x.toFixed(2))`: rounds a finite value to 2 decimal
places and maps a non-finite value to a non-finite value. -/
def jsToFixed2 (a : Option ℚ) : Option ℚ :=
  a.map round2

/-- The per-post `engagementRate` computation of `getPopularPosts`
(lines 213-216 and 227): the guarded ternary followed by
`parseFloat(engagementRate.toFixed(2))`, with JavaScript number
semantics made explicit. -/
def jsEngagementRate (engagements views : Nat) : Option ℚ :=
  jsToFixed2
    (if 0 < views then
       jsMul (jsDiv (some (engagements : ℚ)) (some (views : ℚ))) (some 100)
     else some 0)

/-- The rounded per-post rate stored in `engagementMetrics.engagementRate`
(line 227) and used by the sort comparator, as a total `ℚ` value (the
guard makes the division safe, see `jsEngagementRate_eq`). -/
def engagementRate2 (p : PostRec) : ℚ :=
  round2 (rateOf (totalEngagements p) p.views)

/-- The order imposed by the `getPopularPosts` comparator
(lines 233-247): `b.totalEngagements - a.totalEngagements`, ties broken
by `b.engagementRate - a.engagementRate`; `a` sorts no later than `b`
iff the comparator is `≤ 0`. -/
def engLE (a b : PostRec) : Prop :=
  totalEngagements b < totalEngagements a ∨
    (totalEngagements a = totalEngagements b ∧ engagementRate2 b ≤ engagementRate2 a)

instance : DecidableRel engLE :=
  fun a b =>
    inferInstanceAs
      (Decidable (totalEngagements b < totalEngagements a ∨
        (totalEngagements a = totalEngagements b ∧
          engagementRate2 b ≤ engagementRate2 a)))

instance : IsTotal PostRec engLE :=
  ⟨fun a b => by
    rcases Nat.lt_trichotomy (totalEngagements a) (totalEngagements b) with h | h | h
    · exact Or.inr (Or.inl h)
    · rcases le_total (engagementRate2 b) (engagementRate2 a) with hr | hr
      · exact Or.inl (Or.inr ⟨h, hr⟩)
      · exact Or.inr (Or.inr ⟨h.symm, hr⟩)
    · exact Or.inl (Or.inl h)⟩

instance : IsTrans PostRec engLE :=
  ⟨fun a b c hab hbc => by
    rcases hab with h1 | ⟨h1, r1⟩
    · rcases hbc with h2 | ⟨h2, _⟩
      · exact Or.inl (h2.trans h1)
      · exact Or.inl (h2 ▸ h1)
    · rcases hbc with h2 | ⟨h2, r2⟩
      · exact Or.inl (h1 ▸ h2)
      · exact Or.inr ⟨h1.trans h2, r2.trans r1⟩⟩

/-- The ranking core of `getPopularPosts` (lines 208-250): decorate with
engagement metrics (a pure function of the row, so the rows themselves
are sorted), stable-sort by the comparator, `slice(0, limit)`. -/
def getPopularPostsRanked (posts : List PostRec) (limit : Nat) : List PostRec :=
  (posts.insertionSort engLE).take limit

/-! #### Time-window resolution -/

/-- The `TimePeriod` union type (`types.tsx` line 131). -/
inductive TimePeriod where
  | day
  | week
  | month
  | year
  | all
deriving DecidableEq, Repr

/-- The start of the resolved window, relative to `endDate = now`:
what each `switch` branch assigns to `startDate`. -/
inductive WindowStart where
  | daysBack (n : Nat)
  | monthsBack (n : Nat)
  | yearsBack (n : Nat)
  | epoch
deriving DecidableEq, Repr

/-- The `switch (period)` of `getPopularPosts` and `getTrendingTopics`
(lines 150-168 and 299-317): `day`, `week`, `month`, `year`, `all`, and
a `default` of 7 days back; `all` maps to `new Date(0)`. -/
def resolveWindowStartPopular : TimePeriod → WindowStart
  | .day => .daysBack 1
  | .week => .daysBack 7
  | .month => .monthsBack 1
  | .year => .yearsBack 1
  | .all => .epoch

/-- The `switch (period)` of `getUserEngagementComparison`
(lines 462-477): it has cases for `day`, `week`, `month`, `year` and a
`default` of one month back — and no `case "all"`, so the value `all`
of `TimePeriod` falls through to the `default` branch. -/
def resolveWindowStartComparison : TimePeriod → WindowStart
  | .day => .daysBack 1
  | .week => .daysBack 7
  | .month => .monthsBack 1
  | .year => .yearsBack 1
  | .all => .monthsBack 1

/-! #### Percentile ranker (`getUserEngagementComparison`, lines 450-647)

The function issues three queries against one database state: the user
lookup, the user's posts in the window, and all posts in the window.
The embedding takes the window's posts as one list `posts`; the user's
posts are `posts.filter (userId = uid)`, which is what the filtered
query returns on the same state. The per-author grouping loop
(lines 566-595) re-reads each post's `userId` and accumulates sums per
author in `Map` insertion order (first occurrence). -/

/-- The user's posts in the window: the `userPosts` query (lines 490-509). -/
def userPostsOf (uid : String) (posts : List PostRec) : List PostRec :=
  posts.filter (fun p => p.userId == uid)

/-- Sum of `totalEngagements` over a list of posts. -/
def sumEngagements (ps : List PostRec) : Nat :=
  (ps.map totalEngagements).sum

/-- Sum of `views` over a list of posts. -/
def sumViews (ps : List PostRec) : Nat :=
  (ps.map (fun p => p.views)).sum

/-- `userEngagementRate` (lines 512-523): aggregate engagements over
aggregate views of the user's posts, guarded. -/
def userEngagementRate (uid : String) (posts : List PostRec) : ℚ :=
  rateOf (sumEngagements (userPostsOf uid posts)) (sumViews (userPostsOf uid posts))

/-- `platformEngagementRate` (lines 547-560): aggregate engagements over
aggregate views of all posts in the window, guarded. -/
def platformEngagementRate (posts : List PostRec) : ℚ :=
  rateOf (sumEngagements posts) (sumViews posts)

/-- The key set of `userPostsMap` (lines 566-595) in insertion order:
every distinct author of a post in the window, at first occurrence. -/
def windowAuthors (posts : List PostRec) : List String :=
  (posts.map (fun p => p.userId)).dedup

/-- `allUserEngagementRates` after the `sort((a, b) => a - b)` of
line 604: one aggregate rate per author in the window, ascending. -/
def allUserEngagementRates (posts : List PostRec) : List ℚ :=
  ((windowAuthors posts).map (fun a => userEngagementRate a posts)).insertionSort
    (fun x y => x ≤ y)

/-- The `percentileRank` computation (lines 607-617): `0` if the rate
list is empty; otherwise the index of the first rate `>=` the user's
rate divided by the list length times 100, or `100` if no such rate
exists (`findIndex` returned `-1`). -/
def percentileRank (uid : String) (posts : List PostRec) : ℚ :=
  if 0 < (allUserEngagementRates posts).length then
    match (allUserEngagementRates posts).findIdx?
        (fun x => decide (userEngagementRate uid posts ≤ x)) with
    | some i => ((i : ℚ) / ((allUserEngagementRates posts).length : ℚ)) * 100
    | none => 100
  else 0

/-- The `comparison` field of the response (lines 635-637):
`parseFloat(((userRate / platformRate) * 100 - 100).toFixed(2))` — the
division is NOT guarded, so a zero platform rate produces a non-finite
value. -/
def comparison (uid : String) (posts : List PostRec) : Option ℚ :=
  jsToFixed2
    (jsSub
      (jsMul
        (jsDiv (some (userEngagementRate uid posts))
               (some (platformEngagementRate posts)))
        (some 100))
      (some 100))

end Metrics

/-! ### Concrete inputs used by witnesses and counterexamples -/

namespace Inputs

open DataService Metrics

/-- A snapshot with two posts, one commented: popular-posts witness input. -/
def rawW1 : RawData :=
  { users := [⟨"u1", "Alice", "alice@example.com"⟩],
    posts := [⟨"p1", "u1", "t1", "c1", 100⟩, ⟨"p2", "u1", "t2", "c2", 200⟩],
    comments := [⟨"c1", "p2", "u1", "nice", 300⟩] }

/-- A populated cache whose data were fetched at time 1 (so it is stale
at time 20000). -/
def cacheC3 : CacheData :=
  { rawData :=
      { users := [⟨"u1", "Alice", "alice@example.com"⟩],
        posts := [],
        comments := [] },
    computed :=
      { topUsers := [⟨⟨"u1", "Alice", "alice@example.com"⟩, 2⟩],
        latestPosts := [],
        popularPosts := [] },
    lastFetched := 1 }

/-- A flight state with a refresh in flight (promise id 0), one
`fetchAll` already counted, and a cache last fetched at time 1. -/
def flightS1 : FlightState := { lastFetched := 1, inFlight := some 0, fetchCount := 1 }

/-- A batch of three concurrent refresh calls: an unforced one at a
fresh instant, a forced one, and an unforced one at a stale instant. -/
def callsW : List (Bool × Nat) := [(false, 2), (true, 2), (false, 20000)]

/-- A single post by a single author with one like and one view: its
author is the platform's sole — hence top — performer. -/
def cpC5 : PostRec := ⟨"p1", "u1", 1, 0, 0, 1⟩

/-- A post with engagements but zero views: its window has a zero
platform engagement rate. -/
def cpC6 : PostRec := ⟨"p1", "u1", 2, 3, 1, 0⟩

/-- Two posts with distinct engagement totals, used by the ranking
witness. -/
def pLow : PostRec := ⟨"a", "u1", 3, 0, 0, 1⟩

/-- See `pLow`. -/
def pHigh : PostRec := ⟨"b", "u2", 5, 0, 0, 1⟩

/-- See `pLow`. -/
def postsW7 : List PostRec := [pLow, pHigh]

end Inputs

/-! ### Helper lemmas -/

lemma le_foldr_max {v : Nat} : ∀ {l : List Nat}, v ∈ l → v ≤ l.foldr max 0 := by
  intro l
  induction l with
  | nil => intro h; cases h
  | cons a t ih =>
      intro h
      rcases List.mem_cons.mp h with rfl | h
      · exact Nat.le_max_left _ _
      · exact Nat.le_trans (ih h) (Nat.le_max_right _ _)

lemma foldr_max_le {b : Nat} : ∀ {l : List Nat}, (∀ v ∈ l, v ≤ b) → l.foldr max 0 ≤ b := by
  intro l
  induction l with
  | nil => intro _; exact Nat.zero_le b
  | cons a t ih =>
      intro h
      exact Nat.max_le.mpr
        ⟨h a (List.mem_cons_self a t), ih fun v hv => h v (List.mem_cons_of_mem a hv)⟩

namespace DataService

lemma exists_comment_of_mem_commentedPostIds {comments : List Comment} {pid : String}
    (h : pid ∈ commentedPostIds comments) : ∃ c ∈ comments, c.postId = pid := by
  rw [commentedPostIds, List.mem_dedup] at h
  obtain ⟨c, hc, hceq⟩ := List.mem_map.mp h
  exact ⟨c, hc, hceq⟩

lemma mem_commentedPostIds_of_pos {comments : List Comment} {pid : String}
    (h : 0 < commentCountOf comments pid) : pid ∈ commentedPostIds comments := by
  rw [commentCountOf] at h
  obtain ⟨c, hc⟩ := List.exists_mem_of_length_pos h
  have hm := List.mem_filter.mp hc
  rw [commentedPostIds, List.mem_dedup]
  exact List.mem_map.mpr ⟨c, hm.1, beq_iff_eq.mp hm.2⟩

/-- Under referential integrity of the snapshot (every comment's
`postId` names an existing post — part of the spec's data model), the
maximum over the `postCommentCounts` map values equals the maximum
comment count across all posts. -/
lemma maxCommentCount_eq {raw : RawData}
    (hint : ∀ c ∈ raw.comments, c.postId ∈ raw.posts.map Post.id) :
    maxCommentCount raw.comments = maxCommentCountSpec raw := by
  apply Nat.le_antisymm
  · apply foldr_max_le
    intro v hv
    obtain ⟨pid, hpid, rfl⟩ := List.mem_map.mp hv
    obtain ⟨c, hc, rfl⟩ := exists_comment_of_mem_commentedPostIds hpid
    obtain ⟨p, hp, hpeq⟩ := List.mem_map.mp (hint c hc)
    exact le_foldr_max (List.mem_map.mpr ⟨p, hp, by rw [hpeq]⟩)
  · apply foldr_max_le
    intro v hv
    obtain ⟨p, hp, rfl⟩ := List.mem_map.mp hv
    rcases Nat.eq_zero_or_pos (commentCountOf raw.comments p.id) with h0 | hpos
    · exact h0 ▸ Nat.zero_le _
    · exact le_foldr_max
        (List.mem_map.mpr ⟨p.id, mem_commentedPostIds_of_pos hpos, rfl⟩)

end DataService

namespace Claims

open DataService Metrics Inputs

/-- C1: for every RawSnapshot (with referentially intact comments, as
the data model requires), `popularPosts` contains exactly those posts
whose comment count equals the maximum comment count across all posts —
every tied post is returned, not a top-N cut — and if the snapshot's
posts list is empty then `popularPosts` is empty. -/
theorem popularPosts_tiedMax (raw : RawData)
    (hint : ∀ c ∈ raw.comments, c.postId ∈ raw.posts.map Post.id) :
    (computePopularPosts raw).map PostWithStats.toPost = popularPostsSpec raw ∧
      (raw.posts = [] → computePopularPosts raw = []) := by
  constructor
  · simp only [computePopularPosts, popularPostsSpec, maxCommentCount_eq hint,
      List.map_map]
    exact List.map_id _
  · intro h
    simp [computePopularPosts, h]

/-- Witness for C1 at a concrete two-post snapshot. -/
theorem popularPosts_tiedMax_witness :
    (∀ c ∈ rawW1.comments, c.postId ∈ rawW1.posts.map Post.id) ∧
      ((computePopularPosts rawW1).map PostWithStats.toPost = popularPostsSpec rawW1 ∧
        (rawW1.posts = [] → computePopularPosts rawW1 = [])) :=
  ⟨by decide, popularPosts_tiedMax rawW1 (by decide)⟩

/-- C9: for every RawSnapshot, `topUsers` has at most 5 entries, is
sorted non-increasing by `postCount`, and users with equal `postCount`
appear in their original snapshot order (the descending sort is
stable): for each count value `k` the users of that count in the output
form a sublist of the users of that count in snapshot order. -/
theorem topUsers_bounded_sorted_stable (raw : RawData) :
    (computeTopUsers raw).length ≤ 5 ∧
      List.Pairwise (fun a b => b.postCount ≤ a.postCount) (computeTopUsers raw) ∧
      ∀ k, ((computeTopUsers raw).filter (fun u => u.postCount == k)).Sublist
        ((usersWithCounts raw).filter (fun u => u.postCount == k)) := by
  refine ⟨List.length_take_le _ _, ?_, ?_⟩
  · exact List.Pairwise.imp (fun h => h)
      (List.Pairwise.sublist (List.take_sublist _ _)
        (List.sorted_insertionSort topUserLE (usersWithCounts raw)))
  · intro k
    have hpair :
        ((usersWithCounts raw).filter (fun u => u.postCount == k)).Pairwise topUserLE := by
      apply List.pairwise_of_forall_mem_list
      intro a ha b hb
      have ha2 := beq_iff_eq.mp (List.mem_filter.mp ha).2
      have hb2 := beq_iff_eq.mp (List.mem_filter.mp hb).2
      exact Nat.le_of_eq (hb2.trans ha2.symm)
    have h1 :
        ((usersWithCounts raw).filter (fun u => u.postCount == k)).Sublist
          ((usersWithCounts raw).insertionSort topUserLE) :=
      List.sublist_insertionSort hpair (List.filter_sublist _)
    have hself :
        (((usersWithCounts raw).filter (fun u => u.postCount == k)).filter
            (fun u => u.postCount == k)) =
          (usersWithCounts raw).filter (fun u => u.postCount == k) :=
      List.filter_eq_self.mpr fun a ha => (List.mem_filter.mp ha).2
    have h1f :
        ((usersWithCounts raw).filter (fun u => u.postCount == k)).Sublist
          (((usersWithCounts raw).insertionSort topUserLE).filter
            (fun u => u.postCount == k)) := by
      have := List.Sublist.filter (fun u => u.postCount == k) h1
      rwa [hself] at this
    have hperm :
        (((usersWithCounts raw).insertionSort topUserLE).filter
            (fun u => u.postCount == k)).Perm
          ((usersWithCounts raw).filter (fun u => u.postCount == k)) :=
      (List.perm_insertionSort topUserLE _).filter _
    have heq :
        ((usersWithCounts raw).insertionSort topUserLE).filter
            (fun u => u.postCount == k) =
          (usersWithCounts raw).filter (fun u => u.postCount == k) :=
      (h1f.eq_of_length hperm.length_eq.symm).symm
    have hfinal :
        ((computeTopUsers raw).filter (fun u => u.postCount == k)).Sublist
          (((usersWithCounts raw).insertionSort topUserLE).filter
            (fun u => u.postCount == k)) :=
      List.Sublist.filter _ (List.take_sublist _ _)
    rw [heq] at hfinal
    exact hfinal

/-- C7: for every input dataset and limit, the engagement-metrics
popular-posts output is sorted descending by `totalEngagements` with
ties ordered by descending (rounded) `engagementRate`, is truncated to
at most `limit` entries, and every post of the candidate set with
strictly more total engagements than a returned post is itself
returned. -/
theorem popularPosts_ranking (posts : List PostRec) (limit : Nat) :
    (getPopularPostsRanked posts limit).length ≤ limit ∧
      List.Pairwise
        (fun a b => totalEngagements b < totalEngagements a ∨
          (totalEngagements a = totalEngagements b ∧
            engagementRate2 b ≤ engagementRate2 a))
        (getPopularPostsRanked posts limit) ∧
      ∀ p ∈ posts, ∀ q ∈ getPopularPostsRanked posts limit,
        totalEngagements q < totalEngagements p →
          p ∈ getPopularPostsRanked posts limit := by
  refine ⟨List.length_take_le _ _, ?_, ?_⟩
  · exact List.Pairwise.imp (fun h => h)
      (List.Pairwise.sublist (List.take_sublist _ _)
        (List.sorted_insertionSort engLE posts))
  · intro p hp q hq hlt
    by_contra hnot
    have hpS : p ∈ posts.insertionSort engLE := (List.mem_insertionSort engLE).mpr hp
    have hpS2 : p ∈ (posts.insertionSort engLE).take limit ++
        (posts.insertionSort engLE).drop limit := by
      rw [List.take_append_drop]; exact hpS
    have hpa : List.Pairwise engLE ((posts.insertionSort engLE).take limit ++
        (posts.insertionSort engLE).drop limit) := by
      rw [List.take_append_drop]; exact List.sorted_insertionSort engLE posts
    have hdrop : p ∈ (posts.insertionSort engLE).drop limit := by
      rcases List.mem_append.mp hpS2 with h | h
      · exact absurd h hnot
      · exact h
    have hrel : engLE q p := (List.pairwise_append.mp hpa).2.2 q hq p hdrop
    rcases hrel with h | ⟨h, _⟩
    · exact absurd hlt (Nat.lt_asymm h)
    · rw [h] at hlt
      exact Nat.lt_irrefl _ hlt

/-- Witness for C7 at a concrete two-post dataset with limit 2. -/
theorem popularPosts_ranking_witness :
    totalEngagements pLow < totalEngagements pHigh ∧
      pHigh ∈ postsW7 ∧
      pLow ∈ getPopularPostsRanked postsW7 2 ∧
      pHigh ∈ getPopularPostsRanked postsW7 2 :=
  ⟨by decide, by decide, by decide,
    (popularPosts_ranking postsW7 2).2.2 pHigh (by decide) pLow (by decide) (by decide)⟩

/-- C8: for every post in any engagement computation,
`totalEngagements = likes + comments + shares` (views excluded), and the
JavaScript `engagementRate` computation — the guarded ternary followed
by `parseFloat(x.toFixed(2))` — always yields a finite value: the rate
rounded to 2 decimal places when `views > 0` and exactly `0` when
`views = 0`, never `NaN`, `undefined` or a division error. -/
theorem engagementRate_total_and_guarded (p : PostRec) :
    totalEngagements p = p.likes + p.comments + p.shares ∧
      jsEngagementRate (totalEngagements p) p.views = some (engagementRate2 p) ∧
      engagementRate2 p =
        (if 0 < p.views then
           round2 (((totalEngagements p : ℚ) / (p.views : ℚ)) * 100)
         else 0) := by
  refine ⟨rfl, ?_, ?_⟩
  · by_cases h : 0 < p.views
    · have hne : ((p.views : ℚ)) ≠ 0 := by
        exact_mod_cast Nat.pos_iff_ne_zero.mp h
      simp [jsEngagementRate, engagementRate2, rateOf, jsToFixed2, jsMul, jsDiv, h, hne]
    · simp [jsEngagementRate, engagementRate2, rateOf, jsToFixed2, jsMul, jsDiv, h,
        round2]
  · by_cases h : 0 < p.views
    · simp [engagementRate2, rateOf, h]
    · simp [engagementRate2, rateOf, h, round2]

/-- C4: for every refresh attempt whose upstream fetch fails, the
entire cache state — `rawData`, all three `ComputedViews`, and
`lastFetched` — is exactly equal to its value before the attempt: the
swap is all-or-nothing, with no partial overwrite. -/
theorem performRefresh_failure_allOrNothing (now : Nat) (e : FetchError)
    (c : CacheData) :
    performRefresh now (Except.error e) c = (Except.error e, c) ∧
      (performRefresh now (Except.error e) c).2.rawData = c.rawData ∧
      (performRefresh now (Except.error e) c).2.computed.topUsers =
        c.computed.topUsers ∧
      (performRefresh now (Except.error e) c).2.computed.latestPosts =
        c.computed.latestPosts ∧
      (performRefresh now (Except.error e) c).2.computed.popularPosts =
        c.computed.popularPosts ∧
      (performRefresh now (Except.error e) c).2.lastFetched = c.lastFetched :=
  ⟨rfl, rfl, rfl, rfl, rfl, rfl⟩

/-- Counterexample for C3: with a cache populated by a previous
successful fetch (`lastFetched = 1 > 0`, non-empty `topUsers`) that has
gone stale by `now = 20000`, a failing fetch makes `getTopUsers`
propagate the error instead of returning the existing stale view. -/
theorem accessor_stale_error_cex :
    0 < cacheC3.lastFetched ∧
      cacheC3.computed.topUsers ≠ [] ∧
      getTopUsers 20000 (Except.error FetchError.upstreamError) cacheC3 =
        (Except.error FetchError.upstreamError, cacheC3) ∧
      (getTopUsers 20000 (Except.error FetchError.upstreamError) cacheC3).1 ≠
        Except.ok cacheC3.computed.topUsers := by
  decide

/-- C3 as amended: an accessor serves the cached view without consulting
the upstream only while the cache is fresh; once the cache is stale
(or was never populated), a failing triggered refresh propagates the
error to the caller — even when a previous successful fetch populated
the cache — while leaving the cached data unevicted. -/
theorem accessor_error_policy (now : Nat) (fetch : Except FetchError RawData)
    (c : CacheData) (e : FetchError) (hf : fetch = Except.error e) :
    (isCacheFresh now c = true →
       getTopUsers now fetch c = (Except.ok c.computed.topUsers, c) ∧
       getLatestPosts now fetch c = (Except.ok c.computed.latestPosts, c) ∧
       getPopularPostsCached now fetch c = (Except.ok c.computed.popularPosts, c)) ∧
    (isCacheFresh now c = false →
       getTopUsers now fetch c = (Except.error e, c) ∧
       getLatestPosts now fetch c = (Except.error e, c) ∧
       getPopularPostsCached now fetch c = (Except.error e, c)) := by
  subst hf
  constructor
  · intro h
    refine ⟨?_, ?_, ?_⟩ <;>
      simp [getTopUsers, getLatestPosts, getPopularPostsCached, refreshData, h]
  · intro h
    refine ⟨?_, ?_, ?_⟩ <;>
      simp [getTopUsers, getLatestPosts, getPopularPostsCached, refreshData, h,
        performRefresh]

/-- Witness for the amended C3 at the concrete stale populated cache. -/
theorem accessor_error_policy_witness :
    isCacheFresh 20000 cacheC3 = false ∧
      getTopUsers 20000 (Except.error FetchError.upstreamError) cacheC3 =
        (Except.error FetchError.upstreamError, cacheC3) :=
  ⟨by decide,
    ((accessor_error_policy 20000 (Except.error FetchError.upstreamError) cacheC3
        FetchError.upstreamError rfl).2 (by decide)).1⟩

/-- A call of `refreshData` arriving while a refresh is in flight leaves
the flight state (in particular the `fetchAll` invocation count)
unchanged: it either returns on a fresh-cache hit or joins the in-flight
promise. -/
lemma refreshDataStep_inFlight (force : Bool) (now : Nat) (s : FlightState)
    (p : Nat) (h : s.inFlight = some p) :
    (refreshDataStep force now s).2 = s ∧
      ((refreshDataStep force now s).1 = RefreshAction.cacheHit ∨
        (refreshDataStep force now s).1 = RefreshAction.join p) := by
  cases hb : (!force && flightFresh now s) <;>
    simp [refreshDataStep, hb, h]

/-- Counterexample for C2: with a refresh in flight (promise 0) and a
still-fresh cache (`lastFetched = 1`, `now = 2`), an unforced call to
`refreshData` returns on the freshness check — it does NOT await the
in-flight fetch, contradicting "every such caller awaits the one
in-flight fetch and observes its outcome". -/
theorem singleFlight_no_await_cex :
    flightS1.inFlight = some 0 ∧
      (refreshDataStep false 2 flightS1).1 = RefreshAction.cacheHit ∧
      (refreshDataStep false 2 flightS1).1 ≠ RefreshAction.join 0 := by
  decide

/-- C2 as amended: for any set of concurrent calls to the refresh path
made while a refresh is already in flight, no second upstream `fetchAll`
is started — the flight state, and in particular the `fetchAll`
invocation count, is unchanged — and every such caller either returns
immediately on an unforced fresh-cache hit or awaits (joins) the one
in-flight fetch. -/
theorem singleFlight_guard (calls : List (Bool × Nat)) (s : FlightState)
    (p : Nat) (h : s.inFlight = some p) :
    runCalls calls s = s ∧
      (runCalls calls s).fetchCount = s.fetchCount ∧
      ∀ a ∈ runActions calls s,
        a = RefreshAction.cacheHit ∨ a = RefreshAction.join p := by
  induction calls with
  | nil => exact ⟨rfl, rfl, by intro a ha; cases ha⟩
  | cons c rest ih =>
      obtain ⟨hstate, haction⟩ := refreshDataStep_inFlight c.1 c.2 s p h
      refine ⟨?_, ?_, ?_⟩
      · show runCalls rest (refreshDataStep c.1 c.2 s).2 = s
        rw [hstate]
        exact ih.1
      · show (runCalls rest (refreshDataStep c.1 c.2 s).2).fetchCount = s.fetchCount
        rw [hstate]
        exact ih.2.1
      · intro a ha
        rcases List.mem_cons.mp ha with rfl | ha
        · exact haction
        · rw [hstate] at ha
          exact ih.2.2 a ha

/-- Witness for the amended C2: a batch of three concurrent calls
(unforced-fresh, forced, unforced-stale) against an in-flight refresh
leaves the fetch count at 1. -/
theorem singleFlight_guard_witness :
    flightS1.inFlight = some 0 ∧
      runCalls callsW flightS1 = flightS1 ∧
      (runCalls callsW flightS1).fetchCount = flightS1.fetchCount :=
  ⟨rfl, (singleFlight_guard callsW flightS1 0 rfl).1,
    (singleFlight_guard callsW flightS1 0 rfl).2.1⟩

/-- Counterexample for C5: a single author with the only (hence
strictly top) engagement rate of 100. The author's own rate is in the
rate list, so `findIndex` locates it at position 0 and the returned
percentile is 0, not 100. -/
theorem percentileRank_top_cex :
    windowAuthors [cpC5] = ["u1"] ∧
      userEngagementRate "u1" [cpC5] = 100 ∧
      percentileRank "u1" [cpC5] = 0 := by
  have h2 : userEngagementRate "u1" [cpC5] = 100 := by
    norm_num [userEngagementRate, userPostsOf, cpC5, sumEngagements, sumViews,
      totalEngagements, rateOf]
  have hw : windowAuthors [cpC5] = ["u1"] := by decide
  have h3 : allUserEngagementRates [cpC5] = [100] := by
    unfold allUserEngagementRates
    rw [hw, List.map_cons, List.map_nil, h2]
    simp [List.insertionSort, List.orderedInsert]
  refine ⟨hw, h2, ?_⟩
  rw [percentileRank, h3, h2]
  norm_num

/-- C5 as amended: the percentile rank equals the index of the first
rate in the ascending-sorted list that is `>=` the target's rate,
divided by the list length, times 100, whenever that index exists; but
the list contains the rate of every author who posted in the window —
including the target — so for every target with at least one post in
the window the index exists (at or before the target's own rate) and
the returned percentile is strictly less than 100; the 100 branch is
not reached for such inputs. -/
theorem percentileRank_posted (uid : String) (posts : List PostRec)
    (h : userPostsOf uid posts ≠ []) :
    ∃ i, (allUserEngagementRates posts).findIdx?
        (fun x => decide (userEngagementRate uid posts ≤ x)) = some i ∧
      i < (allUserEngagementRates posts).length ∧
      percentileRank uid posts =
        ((i : ℚ) / ((allUserEngagementRates posts).length : ℚ)) * 100 ∧
      percentileRank uid posts < 100 := by
  have hmemu : uid ∈ windowAuthors posts := by
    obtain ⟨p, hp⟩ := List.exists_mem_of_length_pos (List.length_pos.mpr h)
    have hm := List.mem_filter.mp hp
    rw [windowAuthors, List.mem_dedup]
    exact List.mem_map.mpr ⟨p, hm.1, beq_iff_eq.mp hm.2⟩
  have hrate : userEngagementRate uid posts ∈ allUserEngagementRates posts := by
    rw [allUserEngagementRates, List.mem_insertionSort]
    exact List.mem_map.mpr ⟨uid, hmemu, rfl⟩
  have hex : ∃ x ∈ allUserEngagementRates posts,
      (fun x => decide (userEngagementRate uid posts ≤ x)) x = true :=
    ⟨_, hrate, by simp⟩
  have hfind := List.findIdx?_eq_some_of_exists hex
  have hlt : (allUserEngagementRates posts).findIdx
        (fun x => decide (userEngagementRate uid posts ≤ x)) <
      (allUserEngagementRates posts).length :=
    List.findIdx_lt_length.mpr hex
  have hlen : 0 < (allUserEngagementRates posts).length :=
    Nat.lt_of_le_of_lt (Nat.zero_le _) hlt
  have hval : percentileRank uid posts =
      (((allUserEngagementRates posts).findIdx
          (fun x => decide (userEngagementRate uid posts ≤ x)) : ℚ) /
        ((allUserEngagementRates posts).length : ℚ)) * 100 := by
    unfold percentileRank
    rw [if_pos hlen, hfind]
  refine ⟨_, hfind, hlt, hval, ?_⟩
  rw [hval]
  have hn : (0 : ℚ) < ((allUserEngagementRates posts).length : ℚ) := by
    exact_mod_cast hlen
  have hi2 : (((allUserEngagementRates posts).findIdx
      (fun x => decide (userEngagementRate uid posts ≤ x)) : ℚ)) <
      ((allUserEngagementRates posts).length : ℚ) := by
    exact_mod_cast hlt
  have h1 := (div_lt_one hn).mpr hi2
  have h2 := mul_lt_mul_of_pos_right h1 (by norm_num : (0 : ℚ) < 100)
  simpa using h2

/-- Witness for the amended C5 at the single-author dataset. -/
theorem percentileRank_posted_witness :
    userPostsOf "u1" [cpC5] ≠ [] ∧
      ∃ i, (allUserEngagementRates [cpC5]).findIdx?
          (fun x => decide (userEngagementRate "u1" [cpC5] ≤ x)) = some i ∧
        i < (allUserEngagementRates [cpC5]).length ∧
        percentileRank "u1" [cpC5] =
          ((i : ℚ) / ((allUserEngagementRates [cpC5]).length : ℚ)) * 100 ∧
        percentileRank "u1" [cpC5] < 100 :=
  ⟨by decide, percentileRank_posted "u1" [cpC5] (by decide)⟩

/-- C6: the `comparison` division is NOT guarded. On a window whose
posts all have zero views (so both the user's and the platform's rates
are 0), the code computes `(0 / 0) * 100 - 100`, which is `NaN` — not
the `0` the specification requires. Every sibling division in the same
function is guarded by a `views > 0` ternary, so the missing guard here
is a slip in the code. -/
theorem comparison_unguarded_nan :
    userEngagementRate "u1" [cpC6] = 0 ∧
      platformEngagementRate [cpC6] = 0 ∧
      comparison "u1" [cpC6] = none ∧
      comparison "u1" [cpC6] ≠ some 0 := by
  have hu : userEngagementRate "u1" [cpC6] = 0 := by
    norm_num [userEngagementRate, userPostsOf, cpC6, sumEngagements, sumViews,
      totalEngagements, rateOf]
  have hp : platformEngagementRate [cpC6] = 0 := by
    norm_num [platformEngagementRate, cpC6, sumEngagements, sumViews,
      totalEngagements, rateOf]
  have hnone : comparison "u1" [cpC6] = none := by
    unfold comparison
    rw [hu, hp]
    simp [jsDiv, jsMul, jsSub, jsToFixed2]
  refine ⟨hu, hp, hnone, ?_⟩
  rw [hnone]
  simp

/-- Counterexample for C10: in `getUserEngagementComparison` the period
`all` does not resolve to the epoch. -/
theorem comparisonWindow_all_cex :
    resolveWindowStartComparison TimePeriod.all = WindowStart.monthsBack 1 ∧
      resolveWindowStartComparison TimePeriod.all ≠ WindowStart.epoch := by
  decide

/-- C10 as amended: the `switch` in `getUserEngagementComparison` has no
`"all"` case, so period `all` falls through to the `default` branch and
resolves to a window starting one calendar month before now — the same
window as period `month` — not at the epoch; only `getPopularPosts` and
`getTrendingTopics` map `all` to the epoch. -/
theorem comparisonWindow_all_is_month :
    resolveWindowStartComparison TimePeriod.all = WindowStart.monthsBack 1 ∧
      resolveWindowStartComparison TimePeriod.all =
        resolveWindowStartComparison TimePeriod.month ∧
      resolveWindowStartPopular TimePeriod.all = WindowStart.epoch := by
  decide

end Claims

end SocialAnalytics
